import Mathlib

/-!
Shallow embedding of the Chippy CHIP-8 interpreter core (`src/main.rs`).

The `Chip8` structure mirrors the Rust `Chip8` struct field for field.
Machine bytes are modelled as `Nat` with explicit `% 256` where the Rust
code performs 8-bit truncation or wrapping arithmetic; `usize` quantities
are plain `Nat`.  Array indexing that can panic in Rust (memory, display
memory, the call stack, the keypad when indexed by a register value) is
modelled with `Option`-returning guarded reads and writes, so a Rust
out-of-bounds panic corresponds to `none`.  The host RNG (`ThreadRng`) is
modelled as a pure byte stream `rng : Nat -> Nat` together with a cursor
`rng_count` that advances on every draw of a random byte.
-/

def VIDEO_WIDTH : Nat := 64
def VIDEO_HEIGHT : Nat := 32
def FONTSET_START_ADDRESS : Nat := 0x50
def ROM_START_ADDRESS : Nat := 0x200

structure Chip8 where
  index : Nat
  program_counter : Nat
  stack : Nat → Nat
  stack_pointer : Nat
  delay_timer : Nat
  sound_timer : Nat
  registers : Nat → Nat
  memory : Nat → Nat
  display_memory : Nat → Nat
  keypad : Nat → Bool
  rng : Nat → Nat
  rng_count : Nat

/-- Write register `i` (mirrors `self.registers[i] = v`; register indices
come from 4-bit nibbles, hence are always in bounds in the Rust code). -/
def setReg (s : Chip8) (i v : Nat) : Chip8 :=
  { s with registers := Function.update s.registers i v }

/-- Guarded read of `self.memory[i]`; `none` models the Rust panic on an
index outside the 4096-byte array. -/
def readMem (s : Chip8) (i : Nat) : Option Nat :=
  if i < 4096 then some (s.memory i) else none

/-- Guarded write of `self.memory[i]`. -/
def writeMem (s : Chip8) (i v : Nat) : Option Chip8 :=
  if i < 4096 then some { s with memory := Function.update s.memory i v } else none

/-- Guarded read of `self.display_memory[i]` (2048 = 64*32 bytes). -/
def readDisp (s : Chip8) (i : Nat) : Option Nat :=
  if i < 2048 then some (s.display_memory i) else none

/-- Guarded write of `self.display_memory[i]`. -/
def writeDisp (s : Chip8) (i v : Nat) : Option Chip8 :=
  if i < 2048 then some { s with display_memory := Function.update s.display_memory i v } else none

/-- Guarded read of `self.stack[i]` (16 slots). -/
def readStack (s : Chip8) (i : Nat) : Option Nat :=
  if i < 16 then some (s.stack i) else none

/-- Guarded write of `self.stack[i]`. -/
def writeStack (s : Chip8) (i v : Nat) : Option Chip8 :=
  if i < 16 then some { s with stack := Function.update s.stack i v } else none

/-- Guarded read of `self.keypad[k]` for a register-derived key number. -/
def readKey (s : Chip8) (k : Nat) : Option Bool :=
  if k < 16 then some (s.keypad k) else none

/-- `Chip8::new`, with the host RNG byte stream passed in explicitly. -/
def Chip8.new (rngStream : Nat → Nat) : Chip8 :=
  { index := 0
    program_counter := ROM_START_ADDRESS
    stack := fun _ => 0
    stack_pointer := 0
    delay_timer := 0
    sound_timer := 0
    registers := fun _ => 0
    memory := fun _ => 0
    display_memory := fun _ => 0
    keypad := fun _ => false
    rng := rngStream
    rng_count := 0 }

/-- The 80-byte font table of `load_fontset`. -/
def fontset : List Nat :=
  [0xF0, 0x90, 0x90, 0x90, 0xF0,
   0x20, 0x60, 0x20, 0x20, 0x70,
   0xF0, 0x10, 0xF0, 0x80, 0xF0,
   0xF0, 0x10, 0xF0, 0x10, 0xF0,
   0x90, 0x90, 0xF0, 0x10, 0x10,
   0xF0, 0x80, 0xF0, 0x10, 0xF0,
   0xF0, 0x80, 0xF0, 0x90, 0xF0,
   0xF0, 0x10, 0x20, 0x40, 0x40,
   0xF0, 0x90, 0xF0, 0x90, 0xF0,
   0xF0, 0x90, 0xF0, 0x10, 0xF0,
   0xF0, 0x90, 0xF0, 0x90, 0x90,
   0xE0, 0x90, 0xE0, 0x90, 0xE0,
   0xF0, 0x80, 0x80, 0x80, 0xF0,
   0xE0, 0x90, 0x90, 0x90, 0xE0,
   0xF0, 0x80, 0xF0, 0x80, 0xF0,
   0xF0, 0x80, 0xF0, 0x80, 0x80]

/-- Copy a list of bytes into a byte function starting at `base`
(the copy loop of `load_fontset`). -/
def copyBytes (m : Nat → Nat) (base : Nat) : List Nat → (Nat → Nat)
  | [] => m
  | v :: rest => copyBytes (Function.update m base v) (base + 1) rest

/-- `load_fontset`: writes the font table at `FONTSET_START_ADDRESS`. -/
def Chip8.load_fontset (s : Chip8) : Chip8 :=
  { s with memory := copyBytes s.memory FONTSET_START_ADDRESS fontset }

/-- `Chip8::initialize` (named `init` here; `initialize` is a Lean keyword):
a fresh machine with the font set loaded. -/
def Chip8.init (rngStream : Nat → Nat) : Chip8 :=
  Chip8.load_fontset (Chip8.new rngStream)

/-- `00E0` CLS: clear the screen. -/
def opcode_00e0 (s : Chip8) : Chip8 :=
  { s with display_memory := fun _ => 0 }

/-- `00EE` RET: `stack_pointer -= 1; program_counter = stack[stack_pointer]`.
`none` models the `usize` underflow panic when `stack_pointer` is 0 and the
stack-slot bounds check. -/
def opcode_00ee (s : Chip8) : Option Chip8 :=
  if s.stack_pointer = 0 then none
  else
    let s := { s with stack_pointer := s.stack_pointer - 1 }
    match readStack s s.stack_pointer with
    | none => none
    | some a => some { s with program_counter := a }

/-- `1NNN` JP addr. -/
def opcode_1nnn (s : Chip8) (opcode : Nat) : Chip8 :=
  let address := opcode &&& 0x0FFF
  { s with program_counter := address }

/-- `2NNN` CALL addr: push the program counter, then jump. -/
def opcode_2nnn (s : Chip8) (opcode : Nat) : Option Chip8 :=
  let address := opcode &&& 0x0FFF
  match writeStack s s.stack_pointer s.program_counter with
  | none => none
  | some s =>
    let s := { s with stack_pointer := s.stack_pointer + 1 }
    some { s with program_counter := address }

/-- `3XKK` SE VX, byte: skip if `VX = KK`. -/
def opcode_3xkk (s : Chip8) (opcode : Nat) : Chip8 :=
  let vx := (opcode &&& 0x0F00) >>> 8
  let byte := opcode &&& 0x00FF
  if s.registers vx = byte then { s with program_counter := s.program_counter + 2 } else s

/-- `4XKK` SNE VX, byte: skip if `VX != KK`. -/
def opcode_4xkk (s : Chip8) (opcode : Nat) : Chip8 :=
  let vx := (opcode &&& 0x0F00) >>> 8
  let byte := opcode &&& 0x00FF
  if s.registers vx ≠ byte then { s with program_counter := s.program_counter + 2 } else s

/-- `5XY0` SE VX, VY. -/
def opcode_5xy0 (s : Chip8) (opcode : Nat) : Chip8 :=
  let vx := (opcode &&& 0x0F00) >>> 8
  let vy := (opcode &&& 0x00F0) >>> 4
  if s.registers vx = s.registers vy then { s with program_counter := s.program_counter + 2 } else s

/-- `6XKK` LD VX, byte. -/
def opcode_6xkk (s : Chip8) (opcode : Nat) : Chip8 :=
  let vx := (opcode &&& 0x0F00) >>> 8
  let byte := opcode &&& 0x00FF
  setReg s vx byte

/-- `7XKK` ADD VX, byte, with the explicit `% 256` wrap of the source. -/
def opcode_7xkk (s : Chip8) (opcode : Nat) : Chip8 :=
  let vx := (opcode &&& 0x0F00) >>> 8
  let byte := opcode &&& 0x00FF
  setReg s vx ((s.registers vx + byte) % 256)

/-- `8XY0` LD VX, VY. -/
def opcode_8xy0 (s : Chip8) (opcode : Nat) : Chip8 :=
  let vx := (opcode &&& 0x0F00) >>> 8
  let vy := (opcode &&& 0x00F0) >>> 4
  setReg s vx (s.registers vy)

/-- `8XY1` OR VX, VY. -/
def opcode_8xy1 (s : Chip8) (opcode : Nat) : Chip8 :=
  let vx := (opcode &&& 0x0F00) >>> 8
  let vy := (opcode &&& 0x00F0) >>> 4
  setReg s vx (s.registers vx ||| s.registers vy)

/-- `8XY2` AND VX, VY. -/
def opcode_8xy2 (s : Chip8) (opcode : Nat) : Chip8 :=
  let vx := (opcode &&& 0x0F00) >>> 8
  let vy := (opcode &&& 0x00F0) >>> 4
  setReg s vx (s.registers vx &&& s.registers vy)

/-- `8XY3` XOR VX, VY. -/
def opcode_8xy3 (s : Chip8) (opcode : Nat) : Chip8 :=
  let vx := (opcode &&& 0x0F00) >>> 8
  let vy := (opcode &&& 0x00F0) >>> 4
  setReg s vx (s.registers vx ^^^ s.registers vy)

/-- `8XY4` ADD VX, VY with carry flag.  Faithful to the source: the sum is
reduced `% 256` *before* the `> 255` carry test (line 335), and `VX` is then
assigned `sum as u8 & 0xFF`. -/
def opcode_8xy4 (s : Chip8) (opcode : Nat) : Chip8 :=
  let vx := (opcode &&& 0x0F00) >>> 8
  let vy := (opcode &&& 0x00F0) >>> 4
  let sum := (s.registers vx + s.registers vy) % 256
  let s := if sum > 255 then setReg s 0xF 1 else setReg s 0xF 0
  setReg s vx ((sum % 256) &&& 0xFF)

/-- `8XY5` SUB VX, VY.  Branches on strict `>` as the source does; the
`u8` subtractions are modelled with wrapping (`+ 256 ... % 256`) arithmetic,
which agrees with Rust `-` whenever the subtraction does not underflow. -/
def opcode_8xy5 (s : Chip8) (opcode : Nat) : Chip8 :=
  let vx := (opcode &&& 0x0F00) >>> 8
  let vy := (opcode &&& 0x00F0) >>> 4
  if s.registers vx > s.registers vy then
    let s := setReg s 0xF 1
    setReg s vx ((s.registers vx + 256 - s.registers vy) % 256)
  else
    let s := setReg s 0xF 0
    let diff := (s.registers vy + 256 - s.registers vx) % 256
    setReg s vx ((256 - diff) % 256)

/-- `8XY6` SHR VX.  Faithful to the source: `lsb` is computed from the
register *index* nibble (`vx & 0x1`, line 372), not from the register value. -/
def opcode_8xy6 (s : Chip8) (opcode : Nat) : Chip8 :=
  let vx := (opcode &&& 0x0F00) >>> 8
  let lsb := vx &&& 0x1
  let s := setReg s 0xF lsb
  setReg s vx (s.registers vx >>> 1)

/-- `8XY7` SUBN VX, VY, wrapping `u8` subtraction as in `opcode_8xy5`. -/
def opcode_8xy7 (s : Chip8) (opcode : Nat) : Chip8 :=
  let vx := (opcode &&& 0x0F00) >>> 8
  let vy := (opcode &&& 0x00F0) >>> 4
  let s :=
    if s.registers vy > s.registers vx then setReg s 0xF 1 else setReg s 0xF 0
  setReg s vx ((s.registers vy + 256 - s.registers vx) % 256)

/-- `8XYE` SHL VX; the `u8` left shift truncates to 8 bits. -/
def opcode_8xye (s : Chip8) (opcode : Nat) : Chip8 :=
  let vx := (opcode &&& 0x0F00) >>> 8
  let msb := (s.registers vx &&& 0x80) >>> 7
  let s := setReg s 0xF msb
  setReg s vx ((s.registers vx <<< 1) % 256)

/-- `9XY0` SNE VX, VY. -/
def opcode_9xy0 (s : Chip8) (opcode : Nat) : Chip8 :=
  let vx := (opcode &&& 0x0F00) >>> 8
  let vy := (opcode &&& 0x00F0) >>> 4
  if s.registers vx ≠ s.registers vy then { s with program_counter := s.program_counter + 2 } else s

/-- `ANNN` LD I, addr. -/
def opcode_annn (s : Chip8) (opcode : Nat) : Chip8 :=
  let address := opcode &&& 0x0FFF
  { s with index := address }

/-- `BNNN` JP V0, addr.  Faithful to the source: the address is truncated
to a byte (`address as u8`) and added to `V0` in `u8` (wrapping) arithmetic. -/
def opcode_bnnn (s : Chip8) (opcode : Nat) : Chip8 :=
  let address := opcode &&& 0x0FFF
  { s with program_counter := (s.registers 0x0 + address % 256) % 256 }

/-- `CXKK` RND VX, byte: next RNG byte masked by `KK`. -/
def opcode_cxkk (s : Chip8) (opcode : Nat) : Chip8 :=
  let vx := (opcode &&& 0x0F00) >>> 8
  let byte := opcode &&& 0x00FF
  let s := setReg s vx ((s.rng s.rng_count % 256) &&& byte)
  { s with rng_count := s.rng_count + 1 }

/-- Inner column loop of `DXYN` for one sprite row, recursing over the
list of column indices (`for col in 0..8`).  The screen pixel is read (as
`u32`) before the sprite-pixel test, so an out-of-bounds index panics
(`none`) even for clear sprite pixels.  The collision test compares the
byte-valued screen pixel against `0xFFFFFFFF` and the toggle XORs with
`0xFFFFFFFF` before truncating back to a byte, exactly as the source does. -/
def drawCols (sprite_byte x_pos y_pos row : Nat) : List Nat → Chip8 → Option Chip8
  | [], s => some s
  | col :: cols, s =>
    let sprite_pixel := sprite_byte &&& (0x80 >>> col)
    match readDisp s ((y_pos + row) * VIDEO_WIDTH + (x_pos + col)) with
    | none => none
    | some screen_pixel =>
      if sprite_pixel ≠ 0 then
        let s := if screen_pixel = 0xFFFFFFFF then setReg s 0xF 1 else s
        match writeDisp s ((y_pos + row) * VIDEO_WIDTH + (x_pos + col))
            ((screen_pixel ^^^ 0xFFFFFFFF) % 256) with
        | none => none
        | some s => drawCols sprite_byte x_pos y_pos row cols s
      else drawCols sprite_byte x_pos y_pos row cols s

/-- Outer row loop of `DXYN` (`for row in 0..height`): fetch the sprite
byte for each row, then run the column loop over columns `0..8`. -/
def drawRows (x_pos y_pos : Nat) : List Nat → Chip8 → Option Chip8
  | [], s => some s
  | row :: rows, s =>
    match readMem s (s.index + row) with
    | none => none
    | some sprite_byte =>
      match drawCols sprite_byte x_pos y_pos row (List.range 8) s with
      | none => none
      | some s => drawRows x_pos y_pos rows s

/-- `DXYN` DRW VX, VY, nibble: the starting position wraps
(`% VIDEO_WIDTH`, `% VIDEO_HEIGHT`), `VF` is cleared, then the sprite rows
are composited. -/
def opcode_dxyn (s : Chip8) (opcode : Nat) : Option Chip8 :=
  let vx := (opcode &&& 0x0F00) >>> 8
  let vy := (opcode &&& 0x00F0) >>> 4
  let height := opcode &&& 0x000F
  let x_pos := s.registers vx % VIDEO_WIDTH
  let y_pos := s.registers vy % VIDEO_HEIGHT
  let s := setReg s 0xF 0
  drawRows x_pos y_pos (List.range height) s

/-- `EX9E` SKP VX: skip if the key numbered by `VX` is pressed.  The keypad
access is guarded because the register value can exceed 15. -/
def opcode_ex9e (s : Chip8) (opcode : Nat) : Option Chip8 :=
  let vx := (opcode &&& 0x0F00) >>> 8
  let key := s.registers vx
  match readKey s key with
  | none => none
  | some b => some (if b then { s with program_counter := s.program_counter + 2 } else s)

/-- `EXA1` SKNP VX: skip if the key numbered by `VX` is not pressed. -/
def opcode_exa1 (s : Chip8) (opcode : Nat) : Option Chip8 :=
  let vx := (opcode &&& 0x0F00) >>> 8
  let key := s.registers vx
  match readKey s key with
  | none => none
  | some b => some (if !b then { s with program_counter := s.program_counter + 2 } else s)

/-- `FX07` LD VX, DT. -/
def opcode_fx07 (s : Chip8) (opcode : Nat) : Chip8 :=
  let vx := (opcode &&& 0x0F00) >>> 8
  setReg s vx s.delay_timer

/-- `FX0A` LD VX, K: the literal if-else chain over keys `0x0`..`0xF` of the
source; when no key is pressed the program counter is rewound by 2. -/
def opcode_fx0a (s : Chip8) (opcode : Nat) : Chip8 :=
  let vx := (opcode &&& 0x0F00) >>> 8
  if s.keypad 0x0 then setReg s vx 0x0
  else if s.keypad 0x1 then setReg s vx 0x1
  else if s.keypad 0x2 then setReg s vx 0x2
  else if s.keypad 0x3 then setReg s vx 0x3
  else if s.keypad 0x4 then setReg s vx 0x4
  else if s.keypad 0x5 then setReg s vx 0x5
  else if s.keypad 0x6 then setReg s vx 0x6
  else if s.keypad 0x7 then setReg s vx 0x7
  else if s.keypad 0x8 then setReg s vx 0x8
  else if s.keypad 0x9 then setReg s vx 0x9
  else if s.keypad 0xA then setReg s vx 0xA
  else if s.keypad 0xB then setReg s vx 0xB
  else if s.keypad 0xC then setReg s vx 0xC
  else if s.keypad 0xD then setReg s vx 0xD
  else if s.keypad 0xE then setReg s vx 0xE
  else if s.keypad 0xF then setReg s vx 0xF
  else { s with program_counter := s.program_counter - 2 }

/-- `FX15` LD DT, VX. -/
def opcode_fx15 (s : Chip8) (opcode : Nat) : Chip8 :=
  let vx := (opcode &&& 0x0F00) >>> 8
  { s with delay_timer := s.registers vx }

/-- `FX18` LD ST, VX. -/
def opcode_fx18 (s : Chip8) (opcode : Nat) : Chip8 :=
  let vx := (opcode &&& 0x0F00) >>> 8
  { s with sound_timer := s.registers vx }

/-- `FX1E` ADD I, VX. -/
def opcode_fx1e (s : Chip8) (opcode : Nat) : Chip8 :=
  let vx := (opcode &&& 0x0F00) >>> 8
  { s with index := s.index + s.registers vx }

/-- `FX29` LD F, VX: `(FONTSET_START_ADDRESS + 5 * digit) as u8`, a `u8`
computation, hence reduced `% 256`. -/
def opcode_fx29 (s : Chip8) (opcode : Nat) : Chip8 :=
  let vx := (opcode &&& 0x0F00) >>> 8
  let digit := s.registers vx
  { s with index := (FONTSET_START_ADDRESS + 5 * digit) % 256 }

/-- `FX33` LD B, VX: BCD digits stored at `I+2`, `I+1`, `I` in that order. -/
def opcode_fx33 (s : Chip8) (opcode : Nat) : Option Chip8 :=
  let vx := (opcode &&& 0x0F00) >>> 8
  let value := s.registers vx
  match writeMem s (s.index + 2) (value % 10) with
  | none => none
  | some s =>
    let value := value / 10
    match writeMem s (s.index + 1) (value % 10) with
    | none => none
    | some s =>
      let value := value / 10
      match writeMem s s.index (value % 10) with
      | none => none
      | some s => some s

/-- Store loop of `FX55` (`for i in 0..=vx`), recursing over the list of
loop indices: registers `i` into memory at `I + i`. -/
def storeRegs : List Nat → Chip8 → Option Chip8
  | [], s => some s
  | i :: rest, s =>
    match writeMem s (s.index + i) (s.registers i) with
    | none => none
    | some s => storeRegs rest s

/-- Load loop of `FX65` (`for i in 0..=vx`): memory at `I + i` into
register `i`. -/
def loadRegs : List Nat → Chip8 → Option Chip8
  | [], s => some s
  | i :: rest, s =>
    match readMem s (s.index + i) with
    | none => none
    | some b => loadRegs rest (setReg s i b)

/-- `FX55` LD [I], VX. -/
def opcode_fx55 (s : Chip8) (opcode : Nat) : Option Chip8 :=
  let vx := (opcode &&& 0x0F00) >>> 8
  storeRegs (List.range (vx + 1)) s

/-- `FX65` LD VX, [I]. -/
def opcode_fx65 (s : Chip8) (opcode : Nat) : Option Chip8 :=
  let vx := (opcode &&& 0x0F00) >>> 8
  loadRegs (List.range (vx + 1)) s

/-- `decode_and_execute`: the nested dispatch of the source, with the two
full-word cases first, then the high-nibble families, then the secondary
nibble/byte families; unrecognized opcodes are no-ops. -/
def decode_and_execute (s : Chip8) (opcode : Nat) : Option Chip8 :=
  if opcode = 0x00E0 then some (opcode_00e0 s)
  else if opcode = 0x00EE then opcode_00ee s
  else if opcode &&& 0xF000 = 0x1000 then some (opcode_1nnn s opcode)
  else if opcode &&& 0xF000 = 0x2000 then opcode_2nnn s opcode
  else if opcode &&& 0xF000 = 0x3000 then some (opcode_3xkk s opcode)
  else if opcode &&& 0xF000 = 0x4000 then some (opcode_4xkk s opcode)
  else if opcode &&& 0xF000 = 0x5000 then some (opcode_5xy0 s opcode)
  else if opcode &&& 0xF000 = 0x6000 then some (opcode_6xkk s opcode)
  else if opcode &&& 0xF000 = 0x7000 then some (opcode_7xkk s opcode)
  else if opcode &&& 0xF000 = 0x8000 then
    (if opcode &&& 0x000F = 0x0000 then some (opcode_8xy0 s opcode)
     else if opcode &&& 0x000F = 0x0001 then some (opcode_8xy1 s opcode)
     else if opcode &&& 0x000F = 0x0002 then some (opcode_8xy2 s opcode)
     else if opcode &&& 0x000F = 0x0003 then some (opcode_8xy3 s opcode)
     else if opcode &&& 0x000F = 0x0004 then some (opcode_8xy4 s opcode)
     else if opcode &&& 0x000F = 0x0005 then some (opcode_8xy5 s opcode)
     else if opcode &&& 0x000F = 0x0006 then some (opcode_8xy6 s opcode)
     else if opcode &&& 0x000F = 0x0007 then some (opcode_8xy7 s opcode)
     else if opcode &&& 0x000F = 0x000E then some (opcode_8xye s opcode)
     else some s)
  else if opcode &&& 0xF000 = 0x9000 then some (opcode_9xy0 s opcode)
  else if opcode &&& 0xF000 = 0xA000 then some (opcode_annn s opcode)
  else if opcode &&& 0xF000 = 0xB000 then some (opcode_bnnn s opcode)
  else if opcode &&& 0xF000 = 0xC000 then some (opcode_cxkk s opcode)
  else if opcode &&& 0xF000 = 0xD000 then opcode_dxyn s opcode
  else if opcode &&& 0xF000 = 0xE000 then
    (if opcode &&& 0x00FF = 0x009E then opcode_ex9e s opcode
     else if opcode &&& 0x00FF = 0x00A1 then opcode_exa1 s opcode
     else some s)
  else if opcode &&& 0xF000 = 0xF000 then
    (if opcode &&& 0x00FF = 0x0007 then some (opcode_fx07 s opcode)
     else if opcode &&& 0x00FF = 0x000A then some (opcode_fx0a s opcode)
     else if opcode &&& 0x00FF = 0x0015 then some (opcode_fx15 s opcode)
     else if opcode &&& 0x00FF = 0x0018 then some (opcode_fx18 s opcode)
     else if opcode &&& 0x00FF = 0x001E then some (opcode_fx1e s opcode)
     else if opcode &&& 0x00FF = 0x0029 then some (opcode_fx29 s opcode)
     else if opcode &&& 0x00FF = 0x0033 then opcode_fx33 s opcode
     else if opcode &&& 0x00FF = 0x0055 then opcode_fx55 s opcode
     else if opcode &&& 0x00FF = 0x0065 then opcode_fx65 s opcode
     else some s)
  else some s

/-- The two timer decrements at the end of `cycle`: each timer is
decremented only if nonzero. -/
def tickTimers (s : Chip8) : Chip8 :=
  let s := if s.delay_timer > 0 then { s with delay_timer := s.delay_timer - 1 } else s
  if s.sound_timer > 0 then { s with sound_timer := s.sound_timer - 1 } else s

/-- `cycle`: fetch two bytes big-endian, pre-advance the program counter by
2, dispatch, then decrement each timer if nonzero. -/
def cycle (s : Chip8) : Option Chip8 :=
  match readMem s s.program_counter, readMem s (s.program_counter + 1) with
  | some hi, some lo =>
    let opcode := (hi <<< 8) ||| lo
    let s := { s with program_counter := s.program_counter + 2 }
    match decode_and_execute s opcode with
    | none => none
    | some s => some (tickTimers s)
  | _, _ => none

/-- Iterated `cycle`: `step` invoked `n` times by the host. -/
def cycleN : Nat → Chip8 → Option Chip8
  | 0, s => some s
  | n + 1, s =>
    match cycle s with
    | none => none
    | some s => cycleN n s

/-- The observable outcome of a sprite draw: the whole framebuffer and the
collision flag `VF` (or `none` for an out-of-bounds panic). -/
def drawObs : Option Chip8 → Option ((Nat → Nat) × Nat) :=
  Option.map (fun t => (t.display_memory, t.registers 0xF))

/-- Lift a binary relation on machines to `Option`, requiring the two
computations to succeed or fail together. -/
def ORel (R : Chip8 → Chip8 → Prop) : Option Chip8 → Option Chip8 → Prop
  | some a, some b => R a b
  | none, none => True
  | _, _ => False

/-- The fields a sprite draw reads or writes, other than the registers it
only writes: two machines related by `DrawEq` are indistinguishable to
`drawRows`/`drawCols`. -/
def DrawEq (s t : Chip8) : Prop :=
  s.display_memory = t.display_memory ∧ s.memory = t.memory ∧
    s.index = t.index ∧ s.registers 0xF = t.registers 0xF

/-- Every framebuffer byte is either `0x00` or `0xFF`. -/
def DisplayInv (s : Chip8) : Prop :=
  ∀ i, i < 2048 → s.display_memory i = 0x00 ∨ s.display_memory i = 0xFF

/-- A register file holding the ones named by the claims, zero elsewhere. -/
def regs2 (v0 v1 : Nat) : Nat → Nat :=
  Function.update (Function.update (fun _ => 0) 0 v0) 1 v1

/-- Concrete machine for the `8XY4` carry-flag claim: `V0 = 255`, `V1 = 1`. -/
def c1state : Chip8 :=
  { Chip8.new (fun _ => 0) with registers := regs2 255 1 }

/-- Concrete machine for the `DXYN` collision claim: the sprite row `0x80`
at memory `0x300` is drawn at `(0, 0)` over an already-lit pixel. -/
def c2state : Chip8 :=
  { Chip8.new (fun _ => 0) with
    index := 0x300
    memory := Function.update (fun _ => 0) 0x300 0x80
    display_memory := Function.update (fun _ => 0) 0 0xFF }

/-- Concrete machine for the `8XY5` borrow-flag claim: `V0 = V1 = 5`. -/
def c3state : Chip8 :=
  { Chip8.new (fun _ => 0) with registers := regs2 5 5 }

/-- Concrete machine for the `8XY6` shift claim: `V0 = 1` (odd value). -/
def c4state : Chip8 :=
  { Chip8.new (fun _ => 0) with registers := regs2 1 0 }

/-- Concrete machine waiting on `F30A` at `0x200` with no key pressed. -/
def c5state : Chip8 :=
  { Chip8.new (fun _ => 0) with
    memory := Function.update (Function.update (fun _ => 0) 0x200 0xF3) 0x201 0x0A }

/-- The same machine with keys `0x5` and `0xA` pressed (lowest is `0x5`). -/
def c5keyed : Chip8 :=
  { c5state with
    keypad := Function.update (Function.update (fun _ => false) 0xA true) 0x5 true }

/-- Concrete machine for the call/return round trip: `2300` at `0x200`,
`00EE` at `0x300`. -/
def c6state : Chip8 :=
  { Chip8.new (fun _ => 0) with
    memory :=
      Function.update (Function.update (Function.update (fun _ => 0) 0x200 0x23)
        0x300 0x00) 0x301 0xEE }

/-- Concrete machine for the `BNNN` claim: `V0 = 200`. -/
def c7state : Chip8 :=
  { Chip8.new (fun _ => 0) with registers := regs2 200 0 }

/-- Concrete machine for the draw out-of-bounds claim: `V1 = 31` places a
two-row sprite with its second row past the bottom of the framebuffer. -/
def c8state : Chip8 :=
  { Chip8.new (fun _ => 0) with registers := regs2 0 31 }

/-- Concrete machine for the timer claim: `F015` at `0x200` with `V0 = 7`
and `delay_timer = 5`. -/
def c9state : Chip8 :=
  { Chip8.new (fun _ => 0) with
    delay_timer := 5
    registers := regs2 7 0
    memory := Function.update (Function.update (fun _ => 0) 0x200 0xF0) 0x201 0x15 }

/-! ## Bitwise arithmetic toolkit -/

theorem and_mask12 (n : Nat) : n &&& 0x0FFF = n % 4096 :=
  Nat.and_pow_two_sub_one_eq_mod n 12

theorem and_mask8 (n : Nat) : n &&& 0x00FF = n % 256 :=
  Nat.and_pow_two_sub_one_eq_mod n 8

theorem and_mask4 (n : Nat) : n &&& 0x000F = n % 16 :=
  Nat.and_pow_two_sub_one_eq_mod n 4

theorem and_shiftLeft_mask (x m k : Nat) : x &&& (m <<< k) = ((x >>> k) &&& m) <<< k := by
  apply Nat.eq_of_testBit_eq
  intro i
  simp only [Nat.testBit_and, Nat.testBit_shiftLeft, Nat.testBit_shiftRight]
  by_cases h : k ≤ i
  · have h2 : k + (i - k) = i := by omega
    have h3 : i ≥ k := h
    simp [h3, h2, Bool.and_left_comm, Bool.and_comm, Bool.and_assoc]
  · have h3 : ¬ i ≥ k := h
    simp [h3]

theorem and_f000 (n : Nat) : n &&& 0xF000 = n / 4096 % 16 * 4096 := by
  have h : (0xF000 : Nat) = 15 <<< 12 := by decide
  rw [h, and_shiftLeft_mask, Nat.shiftRight_eq_div_pow, Nat.shiftLeft_eq]
  have h2 : (15 : Nat) = 2 ^ 4 - 1 := by decide
  rw [h2, Nat.and_pow_two_sub_one_eq_mod]

theorem nib_x (n : Nat) : (n &&& 0x0F00) >>> 8 = n / 256 % 16 := by
  have h : (0x0F00 : Nat) = 15 <<< 8 := by decide
  rw [h, and_shiftLeft_mask, Nat.shiftLeft_shiftRight, Nat.shiftRight_eq_div_pow]
  have h2 : (15 : Nat) = 2 ^ 4 - 1 := by decide
  rw [h2, Nat.and_pow_two_sub_one_eq_mod]

theorem nib_y (n : Nat) : (n &&& 0x00F0) >>> 4 = n / 16 % 16 := by
  have h : (0x00F0 : Nat) = 15 <<< 4 := by decide
  rw [h, and_shiftLeft_mask, Nat.shiftLeft_shiftRight, Nat.shiftRight_eq_div_pow]
  have h2 : (15 : Nat) = 2 ^ 4 - 1 := by decide
  rw [h2, Nat.and_pow_two_sub_one_eq_mod]

theorem fetch_or (hi lo : Nat) (h : lo < 256) : (hi <<< 8) ||| lo = hi * 256 + lo := by
  rw [Nat.shiftLeft_eq]
  have h2 : (2 : Nat) ^ 8 = 256 := by decide
  rw [h2, Nat.mul_comm hi 256, ← Nat.mul_add_lt_is_or (by omega : lo < 2 ^ 8)]

/-! ## Generic lemmas about the machine operations -/

theorem readMem_lt {s : Chip8} {i : Nat} (h : i < 4096) : readMem s i = some (s.memory i) := by
  simp [readMem, h]

theorem writeStack_lt (u : Chip8) (i v : Nat) (h : i < 16) :
    writeStack u i v = some { u with stack := Function.update u.stack i v } := by
  simp [writeStack, h]

theorem readStack_lt (u : Chip8) (i : Nat) (h : i < 16) :
    readStack u i = some (u.stack i) := by
  simp [readStack, h]

theorem cycle_eq (s : Chip8) (h : s.program_counter + 1 < 4096) :
    cycle s = match decode_and_execute { s with program_counter := s.program_counter + 2 }
        ((s.memory s.program_counter <<< 8) ||| s.memory (s.program_counter + 1)) with
      | none => none
      | some t => some (tickTimers t) := by
  unfold cycle
  rw [readMem_lt (by omega), readMem_lt h]

theorem tickTimers_fields (s : Chip8) :
    (tickTimers s).program_counter = s.program_counter ∧
    (tickTimers s).memory = s.memory ∧
    (tickTimers s).keypad = s.keypad ∧
    (tickTimers s).registers = s.registers ∧
    (tickTimers s).display_memory = s.display_memory ∧
    (tickTimers s).index = s.index ∧
    (tickTimers s).stack = s.stack ∧
    (tickTimers s).stack_pointer = s.stack_pointer := by
  unfold tickTimers
  split <;> dsimp only <;> split <;> exact ⟨rfl, rfl, rfl, rfl, rfl, rfl, rfl, rfl⟩

theorem tickTimers_delay (u : Chip8) : (tickTimers u).delay_timer = u.delay_timer - 1 := by
  by_cases h1 : u.delay_timer > 0 <;> by_cases h2 : u.sound_timer > 0 <;>
    simp [tickTimers, h1, h2] <;> omega

theorem tickTimers_sound (u : Chip8) : (tickTimers u).sound_timer = u.sound_timer - 1 := by
  by_cases h1 : u.delay_timer > 0 <;> by_cases h2 : u.sound_timer > 0 <;>
    simp [tickTimers, h1, h2] <;> omega

theorem decode_fx0a (s : Chip8) (op : Nat) (hop : 0x00EE < op)
    (h1 : op &&& 0xF000 = 0xF000) (h2 : op &&& 0x00FF = 0x000A) :
    decode_and_execute s op = some (opcode_fx0a s op) := by
  unfold decode_and_execute
  rw [if_neg (by omega), if_neg (by omega)]
  simp only [h1, h2]
  norm_num

theorem decode_2nnn (s : Chip8) (op : Nat) (hop : 0x00EE < op)
    (h1 : op &&& 0xF000 = 0x2000) :
    decode_and_execute s op = opcode_2nnn s op := by
  unfold decode_and_execute
  rw [if_neg (by omega), if_neg (by omega)]
  simp only [h1]
  norm_num

theorem decode_00ee (s : Chip8) : decode_and_execute s 0x00EE = opcode_00ee s := by rfl

/-! ## Behaviour of FX0A under the keypad state -/

theorem fx0a_no_key (s : Chip8) (op : Nat) (hk : ∀ k, k < 16 → s.keypad k = false) :
    opcode_fx0a s op = { s with program_counter := s.program_counter - 2 } := by
  unfold opcode_fx0a
  simp [hk 0 (by omega), hk 1 (by omega), hk 2 (by omega), hk 3 (by omega),
    hk 4 (by omega), hk 5 (by omega), hk 6 (by omega), hk 7 (by omega),
    hk 8 (by omega), hk 9 (by omega), hk 10 (by omega), hk 11 (by omega),
    hk 12 (by omega), hk 13 (by omega), hk 14 (by omega), hk 15 (by omega)]

theorem fx0a_key (s : Chip8) (op m : Nat) (hm : m < 16) (hp : s.keypad m = true)
    (hmin : ∀ k, k < m → s.keypad k = false) :
    opcode_fx0a s op = setReg s ((op &&& 0x0F00) >>> 8) m := by
  unfold opcode_fx0a
  interval_cases m <;> simp_all

theorem c5_aux (s : Chip8) (x : Nat) (hx : x < 16)
    (hpc : s.program_counter + 1 < 4096)
    (hhi : s.memory s.program_counter = 0xF0 + x)
    (hlo : s.memory (s.program_counter + 1) = 0x0A)
    (hk : ∀ k, k < 16 → s.keypad k = false) :
    ∃ t, cycle s = some t ∧ t.program_counter = s.program_counter ∧
      t.memory = s.memory ∧ t.keypad = s.keypad := by
  rw [cycle_eq s hpc, hhi, hlo, fetch_or _ _ (by omega)]
  rw [decode_fx0a _ _ (by omega) (by rw [and_f000]; omega) (by rw [and_mask8]; omega)]
  rw [fx0a_no_key { s with program_counter := s.program_counter + 2 }
    ((240 + x) * 256 + 10) (fun k hk16 => hk k hk16)]
  refine ⟨_, rfl, ?_, ?_, ?_⟩
  · rw [(tickTimers_fields _).1]
    show s.program_counter + 2 - 2 = s.program_counter
    omega
  · exact (tickTimers_fields _).2.1
  · exact (tickTimers_fields _).2.2.1

theorem c5_iter (n : Nat) : ∀ (s : Chip8) (x : Nat), x < 16 →
    s.program_counter + 1 < 4096 →
    s.memory s.program_counter = 0xF0 + x →
    s.memory (s.program_counter + 1) = 0x0A →
    (∀ k, k < 16 → s.keypad k = false) →
    ∃ t, cycleN n s = some t ∧ t.program_counter = s.program_counter ∧
      t.memory = s.memory ∧ t.keypad = s.keypad := by
  induction n with
  | zero => exact fun s x _ _ _ _ _ => ⟨s, rfl, rfl, rfl, rfl⟩
  | succ n ih =>
    intro s x hx hpc hhi hlo hk
    obtain ⟨t, ht, hp, hm, hkp⟩ := c5_aux s x hx hpc hhi hlo hk
    obtain ⟨u, hu, hup, hum, huk⟩ := ih t x hx (by rw [hp]; exact hpc)
      (by rw [hp, hm]; exact hhi) (by rw [hp, hm]; exact hlo)
      (by rw [hkp]; exact hk)
    refine ⟨u, ?_, ?_, ?_, ?_⟩
    · show cycleN (n + 1) s = some u
      unfold cycleN
      rw [ht]
      exact hu
    · rw [hup, hp]
    · rw [hum, hm]
    · rw [huk, hkp]

/-! ## Call and return, one step each -/

theorem c6_call (s : Chip8) (nnn : Nat) (hsp : s.stack_pointer < 16) :
    opcode_2nnn { s with program_counter := s.program_counter + 2 } (0x2000 + nnn) =
      some { s with
              program_counter := (0x2000 + nnn) &&& 0x0FFF
              stack := Function.update s.stack s.stack_pointer (s.program_counter + 2)
              stack_pointer := s.stack_pointer + 1 } := by
  unfold opcode_2nnn
  dsimp only
  rw [writeStack_lt _ _ _ hsp]

theorem c6_ret (u : Chip8) (hnz : u.stack_pointer ≠ 0) (hlt : u.stack_pointer - 1 < 16) :
    opcode_00ee u = some { u with
      stack_pointer := u.stack_pointer - 1
      program_counter := u.stack (u.stack_pointer - 1) } := by
  unfold opcode_00ee
  rw [if_neg hnz]
  dsimp only
  rw [readStack_lt _ _ hlt]

/-! ## Sprite-draw simulation: the draw reads only display, memory, index, VF -/

theorem drawCols_sim (sb x y r : Nat) (l : List Nat) : ∀ (s t : Chip8), DrawEq s t →
    ORel DrawEq (drawCols sb x y r l s) (drawCols sb x y r l t) := by
  induction l with
  | nil => intro s t h; exact h
  | cons col cols ih =>
    intro s t h
    obtain ⟨hd, hm, hi, hf⟩ := h
    unfold drawCols
    simp only [readDisp, writeDisp, hd]
    by_cases hidx : (y + r) * VIDEO_WIDTH + (x + col) < 2048
    · simp only [if_pos hidx]
      by_cases hsp : sb &&& (0x80 >>> col) ≠ 0
      · simp only [if_pos hsp]
        by_cases hc : t.display_memory ((y + r) * VIDEO_WIDTH + (x + col)) = 0xFFFFFFFF
        · simp only [if_pos hc]
          exact ih _ _ ⟨by simp [setReg, hd], hm, hi, by simp [setReg]⟩
        · simp only [if_neg hc]
          exact ih _ _ ⟨by simp [hd], hm, hi, hf⟩
      · simp only [if_neg hsp]
        exact ih _ _ ⟨hd, hm, hi, hf⟩
    · simp only [if_neg hidx]
      exact trivial

theorem drawRows_sim (x y : Nat) (l : List Nat) : ∀ (s t : Chip8), DrawEq s t →
    ORel DrawEq (drawRows x y l s) (drawRows x y l t) := by
  induction l with
  | nil => intro s t h; exact h
  | cons row rows ih =>
    intro s t h
    have hsim := drawCols_sim (t.memory (t.index + row)) x y row (List.range 8) s t h
    obtain ⟨hd, hm, hi, hf⟩ := h
    unfold drawRows
    simp only [readMem, hm, hi]
    by_cases hidx : t.index + row < 4096
    · simp only [if_pos hidx]
      cases hcs : drawCols (t.memory (t.index + row)) x y row (List.range 8) s with
      | none =>
        cases hct : drawCols (t.memory (t.index + row)) x y row (List.range 8) t with
        | none => exact trivial
        | some u => rw [hcs, hct] at hsim; exact absurd hsim (by simp [ORel])
      | some u =>
        cases hct : drawCols (t.memory (t.index + row)) x y row (List.range 8) t with
        | none => rw [hcs, hct] at hsim; exact absurd hsim (by simp [ORel])
        | some v =>
          rw [hcs, hct] at hsim
          exact ih u v hsim
    · simp only [if_neg hidx]
      exact trivial

theorem dxyn_obs_eq (s t : Chip8) (op : Nat)
    (hd : s.display_memory = t.display_memory) (hm : s.memory = t.memory)
    (hi : s.index = t.index)
    (hx : s.registers ((op &&& 0x0F00) >>> 8) % 64 = t.registers ((op &&& 0x0F00) >>> 8) % 64)
    (hy : s.registers ((op &&& 0x00F0) >>> 4) % 32 = t.registers ((op &&& 0x00F0) >>> 4) % 32) :
    drawObs (opcode_dxyn s op) = drawObs (opcode_dxyn t op) := by
  unfold opcode_dxyn
  dsimp only
  have hsim := drawRows_sim (t.registers ((op &&& 0x0F00) >>> 8) % VIDEO_WIDTH)
    (t.registers ((op &&& 0x00F0) >>> 4) % VIDEO_HEIGHT) (List.range (op &&& 0x000F))
    (setReg s 0xF 0) (setReg t 0xF 0) ⟨hd, hm, hi, by simp [setReg]⟩
  rw [show s.registers ((op &&& 0x0F00) >>> 8) % VIDEO_WIDTH =
      t.registers ((op &&& 0x0F00) >>> 8) % VIDEO_WIDTH from hx,
    show s.registers ((op &&& 0x00F0) >>> 4) % VIDEO_HEIGHT =
      t.registers ((op &&& 0x00F0) >>> 4) % VIDEO_HEIGHT from hy]
  cases hcs : drawRows (t.registers ((op &&& 0x0F00) >>> 8) % VIDEO_WIDTH)
      (t.registers ((op &&& 0x00F0) >>> 4) % VIDEO_HEIGHT) (List.range (op &&& 0x000F))
      (setReg s 0xF 0) with
  | none =>
    cases hct : drawRows (t.registers ((op &&& 0x0F00) >>> 8) % VIDEO_WIDTH)
        (t.registers ((op &&& 0x00F0) >>> 4) % VIDEO_HEIGHT) (List.range (op &&& 0x000F))
        (setReg t 0xF 0) with
    | none => rfl
    | some u => rw [hcs, hct] at hsim; exact absurd hsim (by simp [ORel])
  | some u =>
    cases hct : drawRows (t.registers ((op &&& 0x0F00) >>> 8) % VIDEO_WIDTH)
        (t.registers ((op &&& 0x00F0) >>> 4) % VIDEO_HEIGHT) (List.range (op &&& 0x000F))
        (setReg t 0xF 0) with
    | none => rw [hcs, hct] at hsim; exact absurd hsim (by simp [ORel])
    | some v =>
      rw [hcs, hct] at hsim
      obtain ⟨hd2, _, _, hf2⟩ := hsim
      simp [drawObs, hd2, hf2]

/-! ## Display invariant machinery -/

theorem DisplayInv_mono {s t : Chip8} (h : t.display_memory = s.display_memory)
    (hs : DisplayInv s) : DisplayInv t := fun i hi => h ▸ hs i hi

theorem disp_3xkk (s : Chip8) (op : Nat) :
    (opcode_3xkk s op).display_memory = s.display_memory := by
  unfold opcode_3xkk; dsimp only; split <;> rfl

theorem disp_4xkk (s : Chip8) (op : Nat) :
    (opcode_4xkk s op).display_memory = s.display_memory := by
  unfold opcode_4xkk; dsimp only; split <;> rfl

theorem disp_5xy0 (s : Chip8) (op : Nat) :
    (opcode_5xy0 s op).display_memory = s.display_memory := by
  unfold opcode_5xy0; dsimp only; split <;> rfl

theorem disp_9xy0 (s : Chip8) (op : Nat) :
    (opcode_9xy0 s op).display_memory = s.display_memory := by
  unfold opcode_9xy0; dsimp only; split <;> rfl

theorem disp_8xy4 (s : Chip8) (op : Nat) :
    (opcode_8xy4 s op).display_memory = s.display_memory := by
  unfold opcode_8xy4; dsimp only; split <;> rfl

theorem disp_8xy5 (s : Chip8) (op : Nat) :
    (opcode_8xy5 s op).display_memory = s.display_memory := by
  unfold opcode_8xy5; dsimp only; split <;> rfl

theorem disp_8xy7 (s : Chip8) (op : Nat) :
    (opcode_8xy7 s op).display_memory = s.display_memory := by
  unfold opcode_8xy7; dsimp only; split <;> rfl

theorem disp_fx0a (s : Chip8) (op : Nat) :
    (opcode_fx0a s op).display_memory = s.display_memory := by
  unfold opcode_fx0a; dsimp only
  simp only [apply_ite Chip8.display_memory]
  simp [setReg]

theorem disp_00ee (s t : Chip8) (h : opcode_00ee s = some t) :
    t.display_memory = s.display_memory := by
  unfold opcode_00ee at h
  split at h
  · exact absurd h (by simp)
  · dsimp only at h
    unfold readStack at h
    split at h
    · exact absurd h (by simp)
    · cases h; rfl

theorem disp_2nnn (s t : Chip8) (op : Nat) (h : opcode_2nnn s op = some t) :
    t.display_memory = s.display_memory := by
  unfold opcode_2nnn writeStack at h
  split at h
  · exact absurd h (by simp)
  · rename_i x u heq
    dsimp only at h
    cases h
    split at heq
    · cases heq; rfl
    · exact absurd heq (by simp)

theorem disp_ex9e (s t : Chip8) (op : Nat) (h : opcode_ex9e s op = some t) :
    t.display_memory = s.display_memory := by
  unfold opcode_ex9e readKey at h
  dsimp only at h
  split at h
  · exact absurd h (by simp)
  · rename_i x b heq
    cases h
    split <;> rfl

theorem disp_exa1 (s t : Chip8) (op : Nat) (h : opcode_exa1 s op = some t) :
    t.display_memory = s.display_memory := by
  unfold opcode_exa1 readKey at h
  dsimp only at h
  split at h
  · exact absurd h (by simp)
  · rename_i x b heq
    cases h
    split <;> rfl

theorem disp_writeMem (s t : Chip8) (i v : Nat) (h : writeMem s i v = some t) :
    t.display_memory = s.display_memory := by
  unfold writeMem at h
  split at h
  · cases h; rfl
  · exact absurd h (by simp)

theorem disp_fx33 (s t : Chip8) (op : Nat) (h : opcode_fx33 s op = some t) :
    t.display_memory = s.display_memory := by
  unfold opcode_fx33 at h
  dsimp only at h
  cases h1 : writeMem s (s.index + 2) (s.registers ((op &&& 0x0F00) >>> 8) % 10) with
  | none => rw [h1] at h; exact absurd h (by simp)
  | some u =>
    rw [h1] at h
    dsimp only at h
    cases h2 : writeMem u (u.index + 1) (s.registers ((op &&& 0x0F00) >>> 8) / 10 % 10) with
    | none => rw [h2] at h; exact absurd h (by simp)
    | some w =>
      rw [h2] at h
      dsimp only at h
      cases h3 : writeMem w w.index (s.registers ((op &&& 0x0F00) >>> 8) / 10 / 10 % 10) with
      | none => rw [h3] at h; exact absurd h (by simp)
      | some z =>
        rw [h3] at h
        cases h
        rw [disp_writeMem _ _ _ _ h3, disp_writeMem _ _ _ _ h2, disp_writeMem _ _ _ _ h1]

theorem disp_storeRegs (l : List Nat) : ∀ s t, storeRegs l s = some t →
    t.display_memory = s.display_memory := by
  induction l with
  | nil => intro s t h; cases h; rfl
  | cons i rest ih =>
    intro s t h
    unfold storeRegs at h
    cases h1 : writeMem s (s.index + i) (s.registers i) with
    | none => rw [h1] at h; exact absurd h (by simp)
    | some u =>
      rw [h1] at h
      rw [ih u t h, disp_writeMem _ _ _ _ h1]

theorem disp_loadRegs (l : List Nat) : ∀ s t, loadRegs l s = some t →
    t.display_memory = s.display_memory := by
  induction l with
  | nil => intro s t h; cases h; rfl
  | cons i rest ih =>
    intro s t h
    unfold loadRegs at h
    unfold readMem at h
    split at h
    · exact absurd h (by simp)
    · rename_i b heq2
      exact ih (setReg s i b) t h

theorem drawCols_inv (sb x y r : Nat) (l : List Nat) : ∀ s t, DisplayInv s →
    drawCols sb x y r l s = some t → DisplayInv t := by
  induction l with
  | nil => intro s t hs h; cases h; exact hs
  | cons col cols ih =>
    intro s t hs h
    unfold drawCols at h
    dsimp only at h
    unfold readDisp at h
    by_cases hidx : (y + r) * VIDEO_WIDTH + (x + col) < 2048
    · rw [if_pos hidx] at h
      dsimp only at h
      by_cases hsp : sb &&& (0x80 >>> col) ≠ 0
      · rw [if_pos hsp] at h
        by_cases hc : s.display_memory ((y + r) * VIDEO_WIDTH + (x + col)) = 0xFFFFFFFF
        · rw [if_pos hc] at h
          unfold writeDisp at h
          rw [if_pos hidx] at h
          dsimp only at h
          refine ih _ t ?_ h
          intro i hi
          dsimp only [setReg]
          by_cases hii : i = (y + r) * VIDEO_WIDTH + (x + col)
          · subst hii
            rw [Function.update_same]
            rcases hs _ hi with h0 | h255
            · right; rw [h0]; decide
            · left; rw [h255]; decide
          · rw [Function.update_noteq hii]
            exact hs i hi
        · rw [if_neg hc] at h
          unfold writeDisp at h
          rw [if_pos hidx] at h
          dsimp only at h
          refine ih _ t ?_ h
          intro i hi
          dsimp only [setReg]
          by_cases hii : i = (y + r) * VIDEO_WIDTH + (x + col)
          · subst hii
            rw [Function.update_same]
            rcases hs _ hi with h0 | h255
            · right; rw [h0]; decide
            · left; rw [h255]; decide
          · rw [Function.update_noteq hii]
            exact hs i hi
      · rw [if_neg hsp] at h
        exact ih _ t hs h
    · rw [if_neg hidx] at h
      simp at h

theorem drawRows_inv (x y : Nat) (l : List Nat) : ∀ s t, DisplayInv s →
    drawRows x y l s = some t → DisplayInv t := by
  induction l with
  | nil => intro s t hs h; cases h; exact hs
  | cons row rows ih =>
    intro s t hs h
    unfold drawRows at h
    unfold readMem at h
    by_cases hidx : s.index + row < 4096
    · rw [if_pos hidx] at h
      dsimp only at h
      cases hcs : drawCols (s.memory (s.index + row)) x y row (List.range 8) s with
      | none => rw [hcs] at h; exact absurd h (by simp)
      | some u =>
        rw [hcs] at h
        exact ih u t (drawCols_inv _ _ _ _ _ s u hs hcs) h
    · rw [if_neg hidx] at h
      simp at h

theorem dxyn_inv (s t : Chip8) (op : Nat) (hs : DisplayInv s)
    (h : opcode_dxyn s op = some t) : DisplayInv t := by
  unfold opcode_dxyn at h
  dsimp only at h
  exact drawRows_inv _ _ _ (setReg s 0xF 0) t (fun i hi => hs i hi) h

theorem decode_inv (s t : Chip8) (op : Nat) (hs : DisplayInv s)
    (h : decode_and_execute s op = some t) : DisplayInv t := by
  unfold decode_and_execute at h
  by_cases hb1 : op = 0x00E0
  · rw [if_pos hb1] at h
    cases h
    intro i hi
    left
    rfl
  · rw [if_neg hb1] at h
    by_cases hb2 : op = 0x00EE
    · rw [if_pos hb2] at h
      exact DisplayInv_mono (disp_00ee s t h) hs
    · rw [if_neg hb2] at h
      by_cases hb3 : op &&& 0xF000 = 0x1000
      · rw [if_pos hb3] at h
        cases h
        exact DisplayInv_mono rfl hs
      · rw [if_neg hb3] at h
        by_cases hb4 : op &&& 0xF000 = 0x2000
        · rw [if_pos hb4] at h
          exact DisplayInv_mono (disp_2nnn s t op h) hs
        · rw [if_neg hb4] at h
          by_cases hb5 : op &&& 0xF000 = 0x3000
          · rw [if_pos hb5] at h
            cases h
            exact DisplayInv_mono (disp_3xkk s op) hs
          · rw [if_neg hb5] at h
            by_cases hb6 : op &&& 0xF000 = 0x4000
            · rw [if_pos hb6] at h
              cases h
              exact DisplayInv_mono (disp_4xkk s op) hs
            · rw [if_neg hb6] at h
              by_cases hb7 : op &&& 0xF000 = 0x5000
              · rw [if_pos hb7] at h
                cases h
                exact DisplayInv_mono (disp_5xy0 s op) hs
              · rw [if_neg hb7] at h
                by_cases hb8 : op &&& 0xF000 = 0x6000
                · rw [if_pos hb8] at h
                  cases h
                  exact DisplayInv_mono rfl hs
                · rw [if_neg hb8] at h
                  by_cases hb9 : op &&& 0xF000 = 0x7000
                  · rw [if_pos hb9] at h
                    cases h
                    exact DisplayInv_mono rfl hs
                  · rw [if_neg hb9] at h
                    by_cases hb10 : op &&& 0xF000 = 0x8000
                    · rw [if_pos hb10] at h
                      by_cases hb11 : op &&& 0x000F = 0x0000
                      · rw [if_pos hb11] at h
                        cases h
                        exact DisplayInv_mono rfl hs
                      · rw [if_neg hb11] at h
                        by_cases hb12 : op &&& 0x000F = 0x0001
                        · rw [if_pos hb12] at h
                          cases h
                          exact DisplayInv_mono rfl hs
                        · rw [if_neg hb12] at h
                          by_cases hb13 : op &&& 0x000F = 0x0002
                          · rw [if_pos hb13] at h
                            cases h
                            exact DisplayInv_mono rfl hs
                          · rw [if_neg hb13] at h
                            by_cases hb14 : op &&& 0x000F = 0x0003
                            · rw [if_pos hb14] at h
                              cases h
                              exact DisplayInv_mono rfl hs
                            · rw [if_neg hb14] at h
                              by_cases hb15 : op &&& 0x000F = 0x0004
                              · rw [if_pos hb15] at h
                                cases h
                                exact DisplayInv_mono (disp_8xy4 s op) hs
                              · rw [if_neg hb15] at h
                                by_cases hb16 : op &&& 0x000F = 0x0005
                                · rw [if_pos hb16] at h
                                  cases h
                                  exact DisplayInv_mono (disp_8xy5 s op) hs
                                · rw [if_neg hb16] at h
                                  by_cases hb17 : op &&& 0x000F = 0x0006
                                  · rw [if_pos hb17] at h
                                    cases h
                                    exact DisplayInv_mono rfl hs
                                  · rw [if_neg hb17] at h
                                    by_cases hb18 : op &&& 0x000F = 0x0007
                                    · rw [if_pos hb18] at h
                                      cases h
                                      exact DisplayInv_mono (disp_8xy7 s op) hs
                                    · rw [if_neg hb18] at h
                                      by_cases hb19 : op &&& 0x000F = 0x000E
                                      · rw [if_pos hb19] at h
                                        cases h
                                        exact DisplayInv_mono rfl hs
                                      · rw [if_neg hb19] at h
                                        cases h
                                        exact hs
                    · rw [if_neg hb10] at h
                      by_cases hb20 : op &&& 0xF000 = 0x9000
                      · rw [if_pos hb20] at h
                        cases h
                        exact DisplayInv_mono (disp_9xy0 s op) hs
                      · rw [if_neg hb20] at h
                        by_cases hb21 : op &&& 0xF000 = 0xA000
                        · rw [if_pos hb21] at h
                          cases h
                          exact DisplayInv_mono rfl hs
                        · rw [if_neg hb21] at h
                          by_cases hb22 : op &&& 0xF000 = 0xB000
                          · rw [if_pos hb22] at h
                            cases h
                            exact DisplayInv_mono rfl hs
                          · rw [if_neg hb22] at h
                            by_cases hb23 : op &&& 0xF000 = 0xC000
                            · rw [if_pos hb23] at h
                              cases h
                              exact DisplayInv_mono rfl hs
                            · rw [if_neg hb23] at h
                              by_cases hb24 : op &&& 0xF000 = 0xD000
                              · rw [if_pos hb24] at h
                                exact dxyn_inv s t op hs h
                              · rw [if_neg hb24] at h
                                by_cases hb25 : op &&& 0xF000 = 0xE000
                                · rw [if_pos hb25] at h
                                  by_cases hb26 : op &&& 0x00FF = 0x009E
                                  · rw [if_pos hb26] at h
                                    exact DisplayInv_mono (disp_ex9e s t op h) hs
                                  · rw [if_neg hb26] at h
                                    by_cases hb27 : op &&& 0x00FF = 0x00A1
                                    · rw [if_pos hb27] at h
                                      exact DisplayInv_mono (disp_exa1 s t op h) hs
                                    · rw [if_neg hb27] at h
                                      cases h
                                      exact hs
                                · rw [if_neg hb25] at h
                                  by_cases hb28 : op &&& 0xF000 = 0xF000
                                  · rw [if_pos hb28] at h
                                    by_cases hb29 : op &&& 0x00FF = 0x0007
                                    · rw [if_pos hb29] at h
                                      cases h
                                      exact DisplayInv_mono rfl hs
                                    · rw [if_neg hb29] at h
                                      by_cases hb30 : op &&& 0x00FF = 0x000A
                                      · rw [if_pos hb30] at h
                                        cases h
                                        exact DisplayInv_mono (disp_fx0a s op) hs
                                      · rw [if_neg hb30] at h
                                        by_cases hb31 : op &&& 0x00FF = 0x0015
                                        · rw [if_pos hb31] at h
                                          cases h
                                          exact DisplayInv_mono rfl hs
                                        · rw [if_neg hb31] at h
                                          by_cases hb32 : op &&& 0x00FF = 0x0018
                                          · rw [if_pos hb32] at h
                                            cases h
                                            exact DisplayInv_mono rfl hs
                                          · rw [if_neg hb32] at h
                                            by_cases hb33 : op &&& 0x00FF = 0x001E
                                            · rw [if_pos hb33] at h
                                              cases h
                                              exact DisplayInv_mono rfl hs
                                            · rw [if_neg hb33] at h
                                              by_cases hb34 : op &&& 0x00FF = 0x0029
                                              · rw [if_pos hb34] at h
                                                cases h
                                                exact DisplayInv_mono rfl hs
                                              · rw [if_neg hb34] at h
                                                by_cases hb35 : op &&& 0x00FF = 0x0033
                                                · rw [if_pos hb35] at h
                                                  exact DisplayInv_mono (disp_fx33 s t op h) hs
                                                · rw [if_neg hb35] at h
                                                  by_cases hb36 : op &&& 0x00FF = 0x0055
                                                  · rw [if_pos hb36] at h
                                                    exact DisplayInv_mono (disp_storeRegs (List.range (((op &&& 0x0F00) >>> 8) + 1)) s t h) hs
                                                  · rw [if_neg hb36] at h
                                                    by_cases hb37 : op &&& 0x00FF = 0x0065
                                                    · rw [if_pos hb37] at h
                                                      exact DisplayInv_mono (disp_loadRegs (List.range (((op &&& 0x0F00) >>> 8) + 1)) s t h) hs
                                                    · rw [if_neg hb37] at h
                                                      cases h
                                                      exact hs
                                  · rw [if_neg hb28] at h
                                    cases h
                                    exact hs


/-! ## The claims -/

/-- Claim C1: the specification says `8xy4` stores `(Vx + Vy) mod 256` in `Vx`
and sets `VF` to 1 exactly when the unmodulated sum exceeds 255.  The code
reduces the sum `% 256` *before* the `> 255` carry test (line 335), so the
carry flag is never set: with `V0 = 255`, `V1 = 1`, opcode `8014` leaves
`VF = 0` even though `255 + 1 > 255`.  The wrapped result itself is correct. -/
theorem c1_8xy4_carry_flag_stuck_zero :
    c1state.registers 0x0 = 255 ∧ c1state.registers 0x1 = 1 ∧
      (opcode_8xy4 c1state 0x8014).registers 0x0 = (255 + 1) % 256 ∧
      (opcode_8xy4 c1state 0x8014).registers 0xF = 0 := by decide

/-- Claim C2: the specification says a sprite pixel drawn onto an already-lit
framebuffer pixel sets `VF = 1` (collision).  The code reads the screen byte
into a `u32` (so its value is at most `0xFF`) and compares it against
`0xFFFFFFFF` (line 465), which can never be equal, so the collision flag is
never set: drawing the one-pixel sprite `0x80` at `(0,0)` over a lit pixel
(`0xFF`) toggles the pixel off but leaves `VF = 0`.  The XOR toggle itself
behaves as specified. -/
theorem c2_dxyn_collision_flag_stuck_zero :
    c2state.display_memory 0 = 0xFF ∧ c2state.memory 0x300 = 0x80 ∧
      (opcode_dxyn c2state 0xD011).map (fun t => (t.registers 0xF, t.display_memory 0)) =
        some (0, 0) := by decide

/-- Claim C3: the specification says `8xy5` sets `VF = 1` iff `Vx ≥ Vy`
before the operation (no borrow).  The code branches on the strict test
`Vx > Vy` (line 355), so at equality it sets `VF = 0` where the claim
requires `VF = 1`: with `V0 = V1 = 5`, opcode `8015` gives `VF = 0`.  The
wrapped difference `(Vx - Vy) mod 256 = 0` is correct. -/
theorem c3_8xy5_borrow_flag_at_equality :
    c3state.registers 0x0 = 5 ∧ c3state.registers 0x1 = 5 ∧
      (opcode_8xy5 c3state 0x8015).registers 0x0 = 0 ∧
      (opcode_8xy5 c3state 0x8015).registers 0xF = 0 := by decide

/-- Claim C4: the specification says `8xy6` saves the least significant bit
of the *value* of `Vx` in `VF` before shifting.  The code computes
`lsb = vx & 0x1` from the register *index* nibble (line 372), not from the
register value: with `x = 0` and `V0 = 1` (odd value), opcode `8016` sets
`VF = 0` although the claim requires `VF = 1`.  The shift itself
(`V0 := 1 >> 1 = 0`) is as specified. -/
theorem c4_8xy6_vf_from_index_nibble :
    c4state.registers 0x0 = 1 ∧
      (opcode_8xy6 c4state 0x8016).registers 0x0 = 0 ∧
      (opcode_8xy6 c4state 0x8016).registers 0xF = 0 := by decide

/-- Claim C5: a step executing `Fx0A` (here the fetched bytes are `0xF0+x`,
`0x0A`) with no key pressed leaves the program counter unchanged — across
any number of consecutive steps, since memory and keypad are also untouched —
and with at least one key pressed stores the lowest-numbered pressed key `m`
in `Vx` and advances the program counter past the instruction. -/
theorem c5_fx0a_wait_for_key (s : Chip8) (x : Nat) (hx : x < 16)
    (hpc : s.program_counter + 1 < 4096)
    (hhi : s.memory s.program_counter = 0xF0 + x)
    (hlo : s.memory (s.program_counter + 1) = 0x0A) :
    ((∀ k, k < 16 → s.keypad k = false) →
      ∀ n, ∃ t, cycleN n s = some t ∧ t.program_counter = s.program_counter) ∧
    (∀ m, m < 16 → s.keypad m = true → (∀ k, k < m → s.keypad k = false) →
      ∃ t, cycle s = some t ∧ t.registers x = m ∧
        t.program_counter = s.program_counter + 2) := by
  constructor
  · intro hk n
    obtain ⟨t, ht, hp, _, _⟩ := c5_iter n s x hx hpc hhi hlo hk
    exact ⟨t, ht, hp⟩
  · intro m hm hp hmin
    rw [cycle_eq s hpc, hhi, hlo, fetch_or _ _ (by omega)]
    rw [decode_fx0a _ _ (by omega) (by rw [and_f000]; omega) (by rw [and_mask8]; omega)]
    rw [fx0a_key { s with program_counter := s.program_counter + 2 }
      ((240 + x) * 256 + 10) m hm hp hmin]
    refine ⟨_, rfl, ?_, ?_⟩
    · rw [(tickTimers_fields _).2.2.2.1]
      show (Function.update s.registers (((240 + x) * 256 + 10 &&& 0x0F00) >>> 8) m) x = m
      have hvx : ((240 + x) * 256 + 10 &&& 0x0F00) >>> 8 = x := by rw [nib_x]; omega
      rw [hvx, Function.update_same]
    · rw [(tickTimers_fields _).1]
      rfl

/-- Witness for C5: on the concrete machine `c5state` (opcode `F30A` at
`0x200`, no key pressed) three steps leave the program counter at `0x200`;
on `c5keyed` (keys `0x5` and `0xA` pressed) one step stores the lowest
pressed key `0x5` in `V3` and advances the program counter to `0x202`. -/
theorem c5_fx0a_wait_for_key_witness :
    (∃ t, cycleN 3 c5state = some t ∧ t.program_counter = c5state.program_counter) ∧
    (∃ t, cycle c5keyed = some t ∧ t.registers 3 = 5 ∧
      t.program_counter = c5keyed.program_counter + 2) := by
  constructor
  · exact (c5_fx0a_wait_for_key c5state 3 (by decide) (by decide) (by decide)
      (by decide)).1 (by decide) 3
  · exact (c5_fx0a_wait_for_key c5keyed 3 (by decide) (by decide) (by decide)
      (by decide)).2 5 (by decide) (by decide) (by decide)

/-- Claim C6: from any machine whose stack has room (`stack_pointer < 16`),
executing a call `2nnn` (fetched bytes `0x20 + nnn/256`, `nnn % 256`) and
then immediately the return `00EE` placed at `nnn` leaves the program
counter at the instruction immediately after the call
(`program_counter + 2`). -/
theorem c6_call_then_ret_round_trip (s : Chip8) (nnn : Nat)
    (hpc : s.program_counter + 1 < 4096)
    (hsp : s.stack_pointer < 16)
    (hnnn : nnn + 1 < 4096)
    (hm1 : s.memory s.program_counter = 0x20 + nnn / 256)
    (hm2 : s.memory (s.program_counter + 1) = nnn % 256)
    (hm3 : s.memory nnn = 0x00)
    (hm4 : s.memory (nnn + 1) = 0xEE) :
    ∃ t, cycleN 2 s = some t ∧ t.program_counter = s.program_counter + 2 := by
  have haddr : (0x2000 + nnn) &&& 0x0FFF = nnn := by rw [and_mask12]; omega
  have hop : (0x20 + nnn / 256) * 256 + nnn % 256 = 0x2000 + nnn := by omega
  have hc1 : cycle s = some (tickTimers { s with
      program_counter := nnn
      stack := Function.update s.stack s.stack_pointer (s.program_counter + 2)
      stack_pointer := s.stack_pointer + 1 }) := by
    rw [cycle_eq s hpc, hm1, hm2, fetch_or _ _ (by omega), hop,
      decode_2nnn _ _ (by omega) (by rw [and_f000]; omega), c6_call s nnn hsp, haddr]
  set S1 : Chip8 := { s with
      program_counter := nnn
      stack := Function.update s.stack s.stack_pointer (s.program_counter + 2)
      stack_pointer := s.stack_pointer + 1 } with hS1
  set T1 : Chip8 := tickTimers S1 with hT1def
  have hT1pc : T1.program_counter = nnn := (tickTimers_fields S1).1
  have hT1m : T1.memory = s.memory := (tickTimers_fields S1).2.1
  have hT1st : T1.stack = Function.update s.stack s.stack_pointer (s.program_counter + 2) :=
    (tickTimers_fields S1).2.2.2.2.2.2.1
  have hT1sp : T1.stack_pointer = s.stack_pointer + 1 :=
    (tickTimers_fields S1).2.2.2.2.2.2.2
  have hfetch2 : ((0x00 : Nat) <<< 8) ||| 0xEE = 0x00EE := by decide
  have hc2 : cycle T1 = some (tickTimers { T1 with
      program_counter := s.program_counter + 2
      stack := Function.update s.stack s.stack_pointer (s.program_counter + 2)
      stack_pointer := s.stack_pointer
      memory := s.memory }) := by
    rw [cycle_eq T1 (by rw [hT1pc]; omega), hT1pc, hT1m, hm3, hm4, hfetch2, decode_00ee,
      c6_ret _ (by dsimp only; rw [hT1sp]; omega) (by dsimp only; rw [hT1sp]; omega)]
    dsimp only
    rw [hT1st, hT1sp]
    rw [show Function.update s.stack s.stack_pointer (s.program_counter + 2)
      (s.stack_pointer + 1 - 1) = s.program_counter + 2 from Function.update_same _ _ _]
    exact rfl
  refine ⟨tickTimers { T1 with
      program_counter := s.program_counter + 2
      stack := Function.update s.stack s.stack_pointer (s.program_counter + 2)
      stack_pointer := s.stack_pointer
      memory := s.memory }, ?_, ?_⟩
  · show cycleN 2 s = _
    unfold cycleN
    rw [hc1]
    show cycleN 1 T1 = _
    unfold cycleN
    rw [hc2]
    rfl
  · rw [(tickTimers_fields _).1]

/-- Witness for C6: on the concrete machine `c6state` (`2300` at `0x200`,
`00EE` at `0x300`), two steps bring the program counter to `0x202`. -/
theorem c6_call_then_ret_round_trip_witness :
    ∃ t, cycleN 2 c6state = some t ∧ t.program_counter = c6state.program_counter + 2 :=
  c6_call_then_ret_round_trip c6state 0x300 (by decide) (by decide) (by decide)
    (by decide) (by decide) (by decide) (by decide)

/-- Claim C7: for a 12-bit address `nnn` and byte-valued `V0`, opcode `Bnnn`
sets the program counter to `(V0 + nnn) mod 256`: the jump target is computed
in 8-bit arithmetic (`address as u8` plus `V0` in `u8`), per the original
design noted in the specification. -/
theorem c7_bnnn_sets_pc_mod256 (s : Chip8) (nnn : Nat)
    (h1 : nnn < 4096) (h2 : s.registers 0 < 256) :
    (opcode_bnnn s (0xB000 + nnn)).program_counter = (s.registers 0 + nnn) % 256 := by
  simp only [opcode_bnnn, and_mask12]
  omega

/-- Witness for C7: on `c7state` (`V0 = 200`), opcode `B123` sets the
program counter to `(200 + 0x123) mod 256`. -/
theorem c7_bnnn_sets_pc_mod256_witness :
    (opcode_bnnn c7state (0xB000 + 0x123)).program_counter = (c7state.registers 0 + 0x123) % 256 :=
  c7_bnnn_sets_pc_mod256 c7state 0x123 (by decide) (by decide)

/-- Claim C8: `Dxyn` wraps only the sprite's starting position — adding any
multiple of 64 to the register giving the x start, or (when the two operand
registers are distinct) any multiple of 32 to the register giving the y
start, leaves the drawn framebuffer and collision flag unchanged — while
individual sprite pixels are not wrapped: on the concrete machine `c8state`
(`V1 = 31`, two-row sprite), the second row's framebuffer index reaches
`32 * 64 = 2048`, outside the 2048-byte buffer, so the draw's out-of-bounds
access branch (`none`, a panic in the Rust source) is reachable. -/
theorem c8_dxyn_wraps_start_only_oob_reachable :
    (∀ (s : Chip8) (op a k : Nat),
      drawObs (opcode_dxyn (setReg s ((op &&& 0x0F00) >>> 8) (a + 64 * k)) op) =
        drawObs (opcode_dxyn (setReg s ((op &&& 0x0F00) >>> 8) a) op)) ∧
    (∀ (s : Chip8) (op b j : Nat), (op &&& 0x0F00) >>> 8 ≠ (op &&& 0x00F0) >>> 4 →
      drawObs (opcode_dxyn (setReg s ((op &&& 0x00F0) >>> 4) (b + 32 * j)) op) =
        drawObs (opcode_dxyn (setReg s ((op &&& 0x00F0) >>> 4) b) op)) ∧
    opcode_dxyn c8state 0xD012 = none := by
  refine ⟨?_, ?_, rfl⟩
  · intro s op a k
    apply dxyn_obs_eq
    · rfl
    · rfl
    · rfl
    · simp only [setReg]
      rw [Function.update_same, Function.update_same]
      omega
    · simp only [setReg]
      by_cases hxy : (op &&& 0x00F0) >>> 4 = (op &&& 0x0F00) >>> 8
      · rw [hxy, Function.update_same, Function.update_same]
        omega
      · rw [Function.update_noteq hxy, Function.update_noteq hxy]
  · intro s op b j hne
    apply dxyn_obs_eq
    · rfl
    · rfl
    · rfl
    · simp only [setReg]
      rw [Function.update_noteq hne, Function.update_noteq hne]
    · simp only [setReg]
      rw [Function.update_same, Function.update_same]
      omega

/-- Witness for C8: instantiating the y-axis wrap invariance (the conjunct
with a hypothesis) at opcode `D121` (`x = 1`, `y = 2`, distinct) on
`c8state` with `b = 7`, `j = 1`. -/
theorem c8_dxyn_wraps_start_only_oob_reachable_witness :
    drawObs (opcode_dxyn (setReg c8state ((0xD121 &&& 0x00F0) >>> 4) (7 + 32 * 1)) 0xD121) =
      drawObs (opcode_dxyn (setReg c8state ((0xD121 &&& 0x00F0) >>> 4) 7) 0xD121) :=
  c8_dxyn_wraps_start_only_oob_reachable.2.1 c8state 0xD121 7 1 (by decide)

/-- Counterexample to claim C9 as stated: the claim requires a nonzero timer
to decrease by *exactly 1* per step "regardless of which instruction was
executed", but `Fx15` overwrites the delay timer before the decrement: on
`c9state` (`F015` at `0x200`, `V0 = 7`, `delay_timer = 5`) the step leaves
`delay_timer = 6`, not `5 - 1 = 4`. -/
theorem c9_timer_decrement_counterexample :
    c9state.delay_timer = 5 ∧ (cycle c9state).map Chip8.delay_timer = some 6 ∧
      (cycle c9state).map Chip8.delay_timer ≠ some (c9state.delay_timer - 1) := by decide

/-- Claim C9 (amended): the per-step timer decrement applies to the timer
values *as left by the executed instruction*: whenever the fetch succeeds and
the instruction execution produces `s₁`, the step completes and each timer,
if nonzero after execution, is decremented by exactly 1, and if zero stays 0
— so neither timer ever wraps below zero.  (Instructions `Fx15`/`Fx18`
overwrite a timer before the decrement, so the pre-step value need not
decrease by exactly 1.) -/
theorem c9_timers_floored_decrement (s s₁ : Chip8)
    (hpc : s.program_counter + 1 < 4096)
    (hd : decode_and_execute { s with program_counter := s.program_counter + 2 }
      ((s.memory s.program_counter <<< 8) ||| s.memory (s.program_counter + 1)) = some s₁) :
    ∃ t, cycle s = some t ∧
      (s₁.delay_timer ≠ 0 → t.delay_timer = s₁.delay_timer - 1) ∧
      (s₁.delay_timer = 0 → t.delay_timer = 0) ∧
      (s₁.sound_timer ≠ 0 → t.sound_timer = s₁.sound_timer - 1) ∧
      (s₁.sound_timer = 0 → t.sound_timer = 0) := by
  rw [cycle_eq s hpc, hd]
  refine ⟨tickTimers s₁, rfl, ?_, ?_, ?_, ?_⟩ <;> intro h <;>
    simp [tickTimers_delay, tickTimers_sound, h]

/-- Witness for the amended C9: on `c9state` the executed `F015` leaves the
delay timer at 7 and the sound timer at 0; the step's decrement produces
`7 - 1 = 6` for the delay timer and keeps the sound timer at 0. -/
theorem c9_timers_floored_decrement_witness :
    ∃ t, cycle c9state = some t ∧
      ((7 : Nat) ≠ 0 → t.delay_timer = 7 - 1) ∧
      ((7 : Nat) = 0 → t.delay_timer = 0) ∧
      ((0 : Nat) ≠ 0 → t.sound_timer = 0 - 1) ∧
      ((0 : Nat) = 0 → t.sound_timer = 0) :=
  c9_timers_floored_decrement c9state
    { c9state with program_counter := c9state.program_counter + 2, delay_timer := 7 }
    (by decide) (by rfl)

/-- Claim C10: every framebuffer byte is always `0x00` or `0xFF`: the
invariant holds for a freshly initialized machine (all pixels `0x00`,
whatever the RNG stream) and is preserved by every successful step —
`00E0` writes `0x00` everywhere, `Dxyn` toggles a touched `0x00`/`0xFF`
byte to the other value, and no other operation writes the framebuffer. -/
theorem c10_framebuffer_bytes_binary :
    (∀ f, DisplayInv (Chip8.init f)) ∧
    (∀ s t, DisplayInv s → cycle s = some t → DisplayInv t) := by
  constructor
  · intro f i hi
    left
    rfl
  · intro s t hs h
    unfold cycle at h
    unfold readMem at h
    by_cases h1 : s.program_counter < 4096
    · rw [if_pos h1] at h
      by_cases h2 : s.program_counter + 1 < 4096
      · rw [if_pos h2] at h
        dsimp only at h
        cases hd : decode_and_execute { s with program_counter := s.program_counter + 2 }
            ((s.memory s.program_counter <<< 8) ||| s.memory (s.program_counter + 1)) with
        | none => rw [hd] at h; simp at h
        | some u =>
          rw [hd] at h
          cases h
          exact DisplayInv_mono ((tickTimers_fields u).2.2.2.2.1)
            (decode_inv { s with program_counter := s.program_counter + 2 } u
              ((s.memory s.program_counter <<< 8) ||| s.memory (s.program_counter + 1))
              (fun i hi => hs i hi) hd)
      · rw [if_neg h2] at h
        simp at h
    · rw [if_neg h1] at h
      simp at h

/-- Witness for C10: the all-zero framebuffer of a fresh machine satisfies
the invariant, and one step (a no-op opcode `0000`) preserves it. -/
theorem c10_framebuffer_bytes_binary_witness :
    DisplayInv { Chip8.new (fun _ => 0) with program_counter := 0x202 } :=
  c10_framebuffer_bytes_binary.2 (Chip8.new (fun _ => 0))
    { Chip8.new (fun _ => 0) with program_counter := 0x202 }
    (fun _ _ => Or.inl rfl) (by rfl)
